import Mathlib

/-!
Verification of the valuation and productivity analytics engine of the
thesis-dashboard repository.

Numbers are modelled as rationals (`ℚ`); Python `Optional[float]` values are
`Option ℚ`.  Python truthiness (`if not x`, `if x and ...`) treats both `None`
and `0.0` as falsy; the embeddings below reproduce that behaviour exactly where
the source relies on it.
-/

namespace ThesisDashboard

/-! ## Valuation calculator (src/data/calculations.py) -/

/-- Source `calculate_nav(eth_holdings, eth_price)`: NAV of the treasury. -/
def calculate_nav (eth_holdings eth_price : ℚ) : ℚ :=
  eth_holdings * eth_price

/-- Source `calculate_nav_per_share`: returns `None` when
`not shares_outstanding or shares_outstanding <= 0` (absent, zero — falsy — or
negative), else `nav / shares_outstanding`. -/
def calculate_nav_per_share (eth_holdings eth_price : ℚ)
    (shares_outstanding : Option ℚ) : Option ℚ :=
  match shares_outstanding with
  | none => none
  | some s => if s ≤ 0 then none else some (calculate_nav eth_holdings eth_price / s)

/-- Source `calculate_nav_discount`: returns `None` when
`not nav_per_share or nav_per_share <= 0`, else
`(stock_price - nav_per_share) / nav_per_share`. -/
def calculate_nav_discount (stock_price : ℚ) (nav_per_share : Option ℚ) : Option ℚ :=
  match nav_per_share with
  | none => none
  | some n => if n ≤ 0 then none else some ((stock_price - n) / n)

/-- Source `calculate_eth_per_share`: same share-count guard as `calculate_nav_per_share`. -/
def calculate_eth_per_share (eth_holdings : ℚ)
    (shares_outstanding : Option ℚ) : Option ℚ :=
  match shares_outstanding with
  | none => none
  | some s => if s ≤ 0 then none else some (eth_holdings / s)

/-- Source `calculate_drawdown(current_price, high_price)`: returns the plain number
`0` when `high_price <= 0`, else `(current_price - high_price) / high_price`.
The return type is `ℚ` (a `float` in the source), not `Option ℚ`. -/
def calculate_drawdown (current_price high_price : ℚ) : ℚ :=
  if high_price ≤ 0 then 0 else (current_price - high_price) / high_price

/-! ## Drawdown as computed by the Yahoo fetcher (src/data/fetchers.py, lines 74-78)

`ath_1y = hist["High"].max() if not hist.empty else None`; then
`if ath_1y and current_price: drawdown = (current_price - ath_1y) / ath_1y`
with `drawdown = None` otherwise.  The history of daily highs and the
separately fetched current price are independent inputs; the code never
raises `ath_1y` to include `current_price`. -/

/-- Maximum of a list of observed daily highs; `none` for an empty history
(`hist.empty`). -/
def histMax : List ℚ → Option ℚ
  | [] => none
  | h :: t =>
    match histMax t with
    | none => some h
    | some m => some (max h m)

/-- The `drawdown_from_ath` value produced by `_fetch_from_yahoo`: defined only
when both `ath_1y` and `current_price` are truthy (non-`None` and nonzero). -/
def yahoo_drawdown_from_ath (highs : List ℚ) (current_price : ℚ) : Option ℚ :=
  match histMax highs with
  | none => none
  | some ath => if ath ≠ 0 ∧ current_price ≠ 0
      then some ((current_price - ath) / ath) else none

/-! ## Phase classifier (src/data/calculations.py, `determine_dat_phase`) -/

/-- Python truthiness test `pe_ratio and pe_ratio > 20`: requires the value to
be present, nonzero and greater than 20. -/
def peTerminalCheck : Option ℚ → Bool
  | none => false
  | some x => decide (x ≠ 0 ∧ 20 < x)

/-- Python truthiness test `nav_discount and abs(nav_discount) < 0.10`:
requires the value to be present, nonzero and of magnitude below 0.10.
A present `0.0` is falsy and fails this test. -/
def ndTransitionCheck : Option ℚ → Bool
  | none => false
  | some x => decide (x ≠ 0 ∧ |x| < 1/10)

/-- Source `determine_dat_phase(nav_discount, has_dividend, pe_ratio, ops_cost_ratio)`:
returns `(phase_code, phase_description)`; the fourth parameter is accepted but
unused, as in the source. -/
def determine_dat_phase (nav_discount : Option ℚ) (has_dividend : Bool)
    (pe : Option ℚ) (_ops_cost : Option ℚ) : String × String :=
  if has_dividend && peTerminalCheck pe then
    ("terminal", "Phase 6c: Terminal - Earnings-driven valuation")
  else if has_dividend || ndTransitionCheck nav_discount then
    ("transition", "Phase 6b: Transition - Moving toward earnings focus")
  else
    ("accumulation", "Phase 6a: Accumulation - NAV discount/premium driven")

/-! ## Portfolio aggregator (src/data/calculations.py, `calculate_portfolio_metrics`) -/

/-- One entry of the `positions` dict: `shares` (default 0) and an optional
`cost_basis`. -/
structure PositionInput where
  shares : ℚ
  cost_basis : Option ℚ
deriving DecidableEq

/-- One entry of the `stock_data` dict: an optional `price` and an optional
`drawdown_from_ath`. -/
structure StockInput where
  price : Option ℚ
  drawdown_from_ath : Option ℚ
deriving DecidableEq

/-- One entry of the returned `positions` dict. -/
structure PositionValue where
  shares : ℚ
  price : ℚ
  value : ℚ
  drawdown : Option ℚ
deriving DecidableEq

/-- The dict returned by `calculate_portfolio_metrics`. -/
structure PortfolioMetrics where
  total_value : ℚ
  total_cost : Option ℚ
  total_pnl : Option ℚ
  positions : List (String × PositionValue)
deriving DecidableEq

/-- Source `stock_data.get(ticker, {})`: first match in the association list. -/
def lookupStock : List (String × StockInput) → String → Option StockInput
  | [], _ => none
  | e :: t, ticker => if e.1 = ticker then some e.2 else lookupStock t ticker

/-- Source `stock.get("price", 0) or 0`: a missing dict, a missing/`None` price and a
zero price all collapse to `0`. -/
def effectivePrice (stock : Option StockInput) : ℚ :=
  match stock with
  | none => 0
  | some s =>
    match s.price with
    | none => 0
    | some p => p

/-- The body of the `for ticker, position in positions.items()` loop: state is
`(total_value, total_cost accumulator, position_values)`.  A falsy
`cost_basis` (`None` or `0`) contributes nothing to `total_cost`. -/
def portfolioStep (stock_data : List (String × StockInput))
    (acc : ℚ × ℚ × List (String × PositionValue))
    (entry : String × PositionInput) : ℚ × ℚ × List (String × PositionValue) :=
  let stock := lookupStock stock_data entry.1
  let price := effectivePrice stock
  let value := entry.2.shares * price
  let dd := match stock with
    | none => none
    | some s => s.drawdown_from_ath
  let newCost := match entry.2.cost_basis with
    | none => acc.2.1
    | some cb => if cb = 0 then acc.2.1 else acc.2.1 + entry.2.shares * cb
  (acc.1 + value, newCost,
    acc.2.2 ++ [(entry.1, ⟨entry.2.shares, price, value, dd⟩)])

/-- Source `calculate_portfolio_metrics(positions, stock_data)`: loop over positions,
then `total_cost if total_cost > 0 else None` and
`total_value - total_cost if total_cost > 0 else None`. -/
def calculate_portfolio_metrics (positions : List (String × PositionInput))
    (stock_data : List (String × StockInput)) : PortfolioMetrics :=
  let r := positions.foldl (portfolioStep stock_data) (0, 0, [])
  { total_value := r.1
    total_cost := if r.2.1 > 0 then some r.2.1 else none
    total_pnl := if r.2.1 > 0 then some (r.1 - r.2.1) else none
    positions := r.2.2 }

/-- The cost contribution of one position: `shares * cost_basis` when the cost
basis is truthy, `0` otherwise.  Used to state what the loop accumulates. -/
def truthyCostContrib (p : PositionInput) : ℚ :=
  match p.cost_basis with
  | none => 0
  | some cb => if cb = 0 then 0 else p.shares * cb

/-- The value contribution of one position: `shares * (price or 0)`. -/
def valueContrib (stock_data : List (String × StockInput))
    (entry : String × PositionInput) : ℚ :=
  entry.2.shares * effectivePrice (lookupStock stock_data entry.1)

/-- Sum of position values over the whole positions list. -/
def valueSum (stock_data : List (String × StockInput))
    (positions : List (String × PositionInput)) : ℚ :=
  (positions.map (valueContrib stock_data)).sum

/-- Sum of `shares * cost_basis` over only the positions whose cost basis is
truthy: the quantity the source's `total_cost` accumulator computes. -/
def costSum (positions : List (String × PositionInput)) : ℚ :=
  (positions.map (fun e => truthyCostContrib e.2)).sum

/-- Example portfolio: one position with a cost basis and one position with
nonzero shares but no cost basis. -/
def examplePositions : List (String × PositionInput) :=
  [("AAA", ⟨100, some 10⟩), ("BBB", ⟨1000, none⟩)]

/-- Example market snapshot for `examplePositions`. -/
def exampleStocks : List (String × StockInput) :=
  [("AAA", ⟨some 20, none⟩), ("BBB", ⟨some 5, none⟩)]

/-! ## Productivity calculator (src/components/other_dats.py,
`render_productivity_section`, non-BTC staking path) -/

/-- The per-company row computed inside the productivity loop (PoS path:
`is_miner = False`, yield from staking). -/
structure ProductivityRecord where
  annual_yield_tokens : ℚ
  annual_yield_usd : ℚ
  annualized_premium : ℚ
  annual_burn_tokens : ℚ
  total_tokens : ℚ
  total_usd : ℚ
  net_rate : ℚ
  yield_multiple : ℚ
  is_accretive : Bool
deriving DecidableEq

/-- The loop body for one PoS company, with `years_active` already computed
from `dat_start_date` (see `yearsActive`):
`annual_yield = holdings × staking_pct × staking_apy`;
`annualized_premium = from_premium / years_active if years_active > 0 else 0`;
`annual_burn_tokens = quarterly_burn_usd × 4 / asset_price if asset_price > 0 else 0`;
`total = yield + premium − burn`; `net_rate = total / holdings if holdings > 0 else 0`;
`yield_multiple = net_rate / staking_apy if staking_apy > 0 else 0`;
`is_accretive = total > 0`. -/
def productivityRecord (holdings staking_pct staking_apy quarterly_burn_usd
    asset_price from_premium years_active : ℚ) : ProductivityRecord :=
  let staked_holdings := holdings * staking_pct
  let annual_yield_tokens := staked_holdings * staking_apy
  let annual_yield_usd := annual_yield_tokens * asset_price
  let annualized_premium :=
    if years_active > 0 then from_premium / years_active else 0
  let annual_burn_usd := quarterly_burn_usd * 4
  let annual_burn_tokens :=
    if asset_price > 0 then annual_burn_usd / asset_price else 0
  let total_tokens := annual_yield_tokens + annualized_premium - annual_burn_tokens
  let total_usd := total_tokens * asset_price
  let net_rate := if holdings > 0 then total_tokens / holdings else 0
  let yield_multiple := if staking_apy > 0 then net_rate / staking_apy else 0
  { annual_yield_tokens := annual_yield_tokens
    annual_yield_usd := annual_yield_usd
    annualized_premium := annualized_premium
    annual_burn_tokens := annual_burn_tokens
    total_tokens := total_tokens
    total_usd := total_usd
    net_rate := net_rate
    yield_multiple := yield_multiple
    is_accretive := decide (total_tokens > 0) }

/-- Source `months_active = max(1, (today - dat_start).days / 30.44)`;
`years_active = months_active / 12`.  `days` is the integer day count
`(today - dat_start).days`; `30.44 = 761/25`. -/
def yearsActive (days : ℤ) : ℚ :=
  (max 1 ((days : ℚ) / (761/25))) / 12

/-- Modelled from the spec words only, for comparison with `yearsActive`:
`years_active = max(1/12, days_since(dat_start_date)/365.25)`;
`365.25 = 1461/4`. -/
def yearsActiveSpec (days : ℤ) : ℚ :=
  max (1/12) ((days : ℚ) / (1461/4))

/-- Source `annualized_premium = from_premium / years_active if years_active > 0 else 0`,
with `years_active` computed from the day count. -/
def annualizedPremiumTokens (from_premium : ℚ) (days : ℤ) : ℚ :=
  if yearsActive days > 0 then from_premium / yearsActive days else 0

/-! ## Cross-company ranking (src/components/other_dats.py, lines 262-265)

`prod_df = prod_df.sort_values(f"Total ({asset}/yr)", ascending=False)`:
a single-key descending sort of the rows, in the order the companies
dictionary was iterated.  No secondary (ticker) key is passed.  The sort is
modelled as a stable insertion sort, which matches the `sort_values`
behaviour on the small frames at issue (NumPy's sort runs as an insertion
sort on short arrays). -/

/-- Per-company inputs for the productivity loop (PoS path); `days_since_start`
stands for `(today - dat_start).days`. -/
structure CompanyInput where
  holdings : ℚ
  staking_pct : ℚ
  staking_apy : ℚ
  quarterly_burn_usd : ℚ
  from_premium : ℚ
  days_since_start : ℤ
deriving DecidableEq

/-- One row of `productivity_data`: ticker plus the computed record. -/
structure ProdRow where
  ticker : String
  record : ProductivityRecord
deriving DecidableEq

/-- Build `productivity_data` in the iteration order of the companies dict. -/
def buildRows (companies : List (String × CompanyInput)) (asset_price : ℚ) :
    List ProdRow :=
  companies.map (fun e =>
    { ticker := e.1
      record := productivityRecord e.2.holdings e.2.staking_pct e.2.staking_apy
        e.2.quarterly_burn_usd asset_price e.2.from_premium
        (yearsActive e.2.days_since_start) })

/-- Row order used by the descending sort on the total-tokens column. -/
def rowGE (a b : ProdRow) : Prop :=
  b.record.total_tokens ≤ a.record.total_tokens

instance : DecidableRel rowGE := fun a b =>
  inferInstanceAs (Decidable (b.record.total_tokens ≤ a.record.total_tokens))

instance : IsTotal ProdRow rowGE :=
  ⟨fun a b => le_total b.record.total_tokens a.record.total_tokens⟩

instance : IsTrans ProdRow rowGE :=
  ⟨fun _ _ _ h1 h2 => le_trans h2 h1⟩

/-- Source `sort_values(..., ascending=False)` on the total-tokens column. -/
def rankRows (companies : List (String × CompanyInput)) (asset_price : ℚ) :
    List ProdRow :=
  List.insertionSort rowGE (buildRows companies asset_price)

/-- Example company parameters: 1,000 tokens held, half staked at 4% APY, no
burn, no premium capture, two years active. -/
def exampleCompany : CompanyInput :=
  { holdings := 1000, staking_pct := 1/2, staking_apy := 1/25
    quarterly_burn_usd := 0, from_premium := 0, days_since_start := 730 }

/-- Two identical companies listed with the later-sorting ticker first. -/
def exampleCompanies : List (String × CompanyInput) :=
  [("ZZZ", exampleCompany), ("AAA", exampleCompany)]

/-! ## Precondition/health evaluator (src/data/calculations.py) -/

/-- Source `get_health_status(value, warning_threshold, critical_threshold,
higher_is_better)`. -/
def get_health_status (value warning_threshold critical_threshold : ℚ)
    (higher_is_better : Bool) : String :=
  if higher_is_better then
    if value ≥ warning_threshold then "healthy"
    else if value ≥ critical_threshold then "warning"
    else "critical"
  else
    if value ≤ warning_threshold then "healthy"
    else if value ≤ critical_threshold then "warning"
    else "critical"

/-- The three statuses computed by `check_precondition_health` for
`eth_dominance`, `eth_yield` and `macro_backdrop`, in that order.  The label
and threshold strings attached to each entry in the source are presentation
text and are omitted; absence of an indicator yields status `"unknown"`. -/
def check_precondition_health (eth_dominance eth_staking_apy
    deficit_gdp : Option ℚ) : String × String × String :=
  let dom := match eth_dominance with
    | none => "unknown"
    | some v => if v ≥ 1/2 then "healthy" else if v ≥ 2/5 then "warning" else "critical"
  let yld := match eth_staking_apy with
    | none => "unknown"
    | some v => if v ≥ 3/100 then "healthy" else if v ≥ 2/100 then "warning" else "critical"
  let backdrop := match deficit_gdp with
    | none => "unknown"
    | some v => if v < -3 then "healthy" else if v < 0 then "warning" else "critical"
  (dom, yld, backdrop)

/-! ## Theorems -/

/-- C1: whenever `shares_outstanding` is absent or ≤ 0, `nav_per_share`,
`token_per_share` and the `nav_discount` computed from that `nav_per_share`
are all `none` (in particular never `some 0`); and `nav_discount` is `none`
whenever its `nav_per_share` input is absent or ≤ 0. -/
theorem C1_undefined_propagation :
    (∀ (h p stock : ℚ) (shares : Option ℚ),
      (shares = none ∨ ∃ s, shares = some s ∧ s ≤ 0) →
      calculate_nav_per_share h p shares = none ∧
      calculate_eth_per_share h shares = none ∧
      calculate_nav_discount stock (calculate_nav_per_share h p shares) = none) ∧
    (∀ (stock : ℚ) (nps : Option ℚ),
      (nps = none ∨ ∃ n, nps = some n ∧ n ≤ 0) →
      calculate_nav_discount stock nps = none) := by
  constructor
  · intro h p stock shares hs
    rcases hs with rfl | ⟨s, rfl, hle⟩
    · exact ⟨rfl, rfl, rfl⟩
    · simp [calculate_nav_per_share, calculate_eth_per_share,
        calculate_nav_discount, hle]
  · intro stock nps hn
    rcases hn with rfl | ⟨n, rfl, hle⟩
    · rfl
    · simp [calculate_nav_discount, hle]

/-- Witness for C1 at concrete inputs. -/
theorem C1_undefined_propagation_witness :
    calculate_nav_per_share 1000000 3500 none = none ∧
    calculate_nav_discount 60 (some (-5)) = none :=
  ⟨(C1_undefined_propagation.1 1000000 3500 60 none (Or.inl rfl)).1,
   C1_undefined_propagation.2 60 (some (-5)) (Or.inr ⟨-5, rfl, by norm_num⟩)⟩

/-- C5: the concrete valuation scenario: holdings 1,000,000, asset price
3,500, shares outstanding 50,000,000, stock price 60 give NAV 3,500,000,000,
NAV per share 70, NAV discount −1/7 (negative, a discount) and token per
share 1/50 = 0.02. -/
theorem C5_concrete_valuation :
    calculate_nav 1000000 3500 = 3500000000 ∧
    calculate_nav_per_share 1000000 3500 (some 50000000) = some 70 ∧
    calculate_nav_discount 60 (calculate_nav_per_share 1000000 3500 (some 50000000))
      = some (-(1/7)) ∧
    (-(1/7) : ℚ) < 0 ∧
    calculate_eth_per_share 1000000 (some 50000000) = some (1/50) := by
  refine ⟨by norm_num [calculate_nav], ?_, ?_, by norm_num, ?_⟩ <;>
    simp [calculate_nav_per_share, calculate_nav_discount, calculate_eth_per_share,
      calculate_nav] <;> norm_num

/-- C10: `calculate_drawdown` returns the plain number `0` — its return type
carries no undefined marker — whenever the high price is ≤ 0. -/
theorem C10_zero_drawdown_on_nonpositive_high (current high : ℚ) (h : high ≤ 0) :
    calculate_drawdown current high = 0 := by
  simp [calculate_drawdown, h]

/-- Witness for C10 at concrete inputs. -/
theorem C10_zero_drawdown_witness : calculate_drawdown 5 0 = 0 :=
  C10_zero_drawdown_on_nonpositive_high 5 0 (by norm_num)

/-- C7 counterexample: at a day count of 3,044 days the code's
`years_active` (months of 30.44 days, floored at 1 month, divided by 12) is
25/3, while the claimed `max(1/12, days/365.25)` is 12176/1461 = 25/3 + 1/1461;
the two formulas disagree, so the claim's 365.25-day annualization is not
what the code computes. -/
theorem C7_counterexample :
    yearsActive 3044 = 25/3 ∧ yearsActiveSpec 3044 = 12176/1461 ∧
    yearsActive 3044 ≠ yearsActiveSpec 3044 := by
  refine ⟨?_, ?_, ?_⟩ <;> norm_num [yearsActive, yearsActiveSpec]

/-- C7 amended: for every day count, `years_active = max(1/12, days/365.28)`
(365.28 = 30.44 × 12, with months floored at one), this value is strictly
positive, and the annualized premium is always the premium divided by it
(the `years_active > 0` guard never fires). -/
theorem C7_annualization (days : ℤ) (from_premium : ℚ) :
    yearsActive days = max (1/12) ((days : ℚ) / (9132/25)) ∧
    0 < yearsActive days ∧
    annualizedPremiumTokens from_premium days = from_premium / yearsActive days := by
  have h1 : yearsActive days = max (1/12) ((days : ℚ) / (9132/25)) := by
    unfold yearsActive
    rw [div_eq_iff (by norm_num : (12:ℚ) ≠ 0)]
    rw [max_mul_of_nonneg _ _ (by norm_num : (0:ℚ) ≤ 12)]
    congr 1
    · norm_num
    · rw [div_mul_eq_mul_div, div_eq_div_iff (by norm_num) (by norm_num)]
      ring
  have h2 : 0 < yearsActive days := by
    rw [h1]
    exact lt_of_lt_of_le (by norm_num) (le_max_left _ _)
  exact ⟨h1, h2, by simp [annualizedPremiumTokens, h2]⟩

/-- C6: the concrete productivity scenario (holdings 100,000, 80% staked at
3.5% APY, quarterly burn 2,000,000 USD at asset price 3,500, premium capture
5,000 tokens over 2 years) yields annual staking yield 2,800 tokens, burn
16000/7 ≈ 2285.71 tokens, annualized premium 2,500 tokens, total 21100/7 ≈
3014.29 tokens, net rate 211/7000 ≈ 0.0301, and is accretive; and for all
inputs `is_accretive` holds exactly when `total_tokens > 0`. -/
theorem C6_concrete_productivity :
    ((productivityRecord 100000 (4/5) (35/1000) 2000000 3500 5000 2).annual_yield_tokens
        = 2800 ∧
      (productivityRecord 100000 (4/5) (35/1000) 2000000 3500 5000 2).annual_burn_tokens
        = 16000/7 ∧
      (productivityRecord 100000 (4/5) (35/1000) 2000000 3500 5000 2).annualized_premium
        = 2500 ∧
      (productivityRecord 100000 (4/5) (35/1000) 2000000 3500 5000 2).total_tokens
        = 21100/7 ∧
      (productivityRecord 100000 (4/5) (35/1000) 2000000 3500 5000 2).net_rate
        = 211/7000 ∧
      (productivityRecord 100000 (4/5) (35/1000) 2000000 3500 5000 2).is_accretive
        = true) ∧
    ∀ h sp sa qb ap fp ya,
      ((productivityRecord h sp sa qb ap fp ya).is_accretive = true ↔
        (productivityRecord h sp sa qb ap fp ya).total_tokens > 0) := by
  constructor
  · refine ⟨?_, ?_, ?_, ?_, ?_, ?_⟩ <;> norm_num [productivityRecord]
  · intro h sp sa qb ap fp ya
    simp [productivityRecord]

/-- Characterization of the truthiness test `pe_ratio and pe_ratio > 20`:
since `20 < x` already forces `x ≠ 0`, the test holds exactly when the value
is present and above 20. -/
theorem peTerminalCheck_iff (pe : Option ℚ) :
    peTerminalCheck pe = true ↔ ∃ x, pe = some x ∧ 20 < x := by
  cases pe with
  | none => simp [peTerminalCheck]
  | some x =>
    simp [peTerminalCheck]
    exact fun h => ne_of_gt (by linarith)

/-- Characterization of the truthiness test
`nav_discount and abs(nav_discount) < 0.10`. -/
theorem ndTransitionCheck_iff (nd : Option ℚ) :
    ndTransitionCheck nd = true ↔ ∃ y, nd = some y ∧ y ≠ 0 ∧ |y| < 1/10 := by
  cases nd with
  | none => simp [ndTransitionCheck]
  | some y => simp [ndTransitionCheck]

/-- C2 counterexample: with `has_dividend = false`, no P/E, and a present
`nav_discount` equal to `0.0`, the classifier returns `accumulation`, not
`transition` as the claim asserts: `0.0` is falsy in the source's
`nav_discount and abs(nav_discount) < 0.10` test. -/
theorem C2_counterexample :
    (determine_dat_phase (some 0) false none none).1 = "accumulation" ∧
    (determine_dat_phase (some 0) false none none).1 ≠ "transition" := by
  decide

/-- C2 amended: first match wins; `terminal` exactly when `has_dividend` and
a present `pe_ratio > 20`; otherwise `transition` exactly when `has_dividend`
or a present *nonzero* `nav_discount` with `abs(nav_discount) < 0.10` (a
present `0.0` is treated as absent); otherwise `accumulation`. -/
theorem C2_phase_priority (nd : Option ℚ) (hd : Bool) (pe ops : Option ℚ) :
    ((determine_dat_phase nd hd pe ops).1 = "terminal" ↔
      hd = true ∧ ∃ x, pe = some x ∧ 20 < x) ∧
    ((determine_dat_phase nd hd pe ops).1 = "transition" ↔
      ¬(hd = true ∧ ∃ x, pe = some x ∧ 20 < x) ∧
      (hd = true ∨ ∃ y, nd = some y ∧ y ≠ 0 ∧ |y| < 1/10)) ∧
    ((determine_dat_phase nd hd pe ops).1 = "accumulation" ↔
      ¬(hd = true ∧ ∃ x, pe = some x ∧ 20 < x) ∧
      ¬(hd = true ∨ ∃ y, nd = some y ∧ y ≠ 0 ∧ |y| < 1/10)) := by
  unfold determine_dat_phase
  split_ifs with h1 h2
  · rw [Bool.and_eq_true] at h1
    have ht : hd = true ∧ ∃ x, pe = some x ∧ 20 < x :=
      ⟨h1.1, (peTerminalCheck_iff pe).mp h1.2⟩
    refine ⟨?_, ?_, ?_⟩ <;> simp [ht]
  · have hnt : ¬(hd = true ∧ ∃ x, pe = some x ∧ 20 < x) := by
      intro ⟨ha, hb⟩
      exact h1 (Bool.and_eq_true .. |>.mpr ⟨ha, (peTerminalCheck_iff pe).mpr hb⟩)
    have htr : hd = true ∨ ∃ y, nd = some y ∧ ¬y = 0 ∧ |y| < 10⁻¹ := by
      rcases Bool.or_eq_true .. |>.mp h2 with h | h
      · exact Or.inl h
      · obtain ⟨y, hy, h0, hlt⟩ := (ndTransitionCheck_iff nd).mp h
        exact Or.inr ⟨y, hy, h0, by rw [← one_div]; exact hlt⟩
    have h3 : hd = false → ∃ x, nd = some x ∧ ¬x = 0 ∧ |x| < 10⁻¹ := by
      intro hdf
      rcases htr with h | h
      · rw [hdf] at h
        exact absurd h (by simp)
      · exact h
    refine ⟨?_, ?_, ?_⟩ <;> simp [hnt] <;> first | exact htr | exact h3
  · have hnt : ¬(hd = true ∧ ∃ x, pe = some x ∧ 20 < x) := by
      intro ⟨ha, hb⟩
      exact h1 (Bool.and_eq_true .. |>.mpr ⟨ha, (peTerminalCheck_iff pe).mpr hb⟩)
    have hntr : ¬(hd = true ∨ ∃ y, nd = some y ∧ y ≠ 0 ∧ |y| < 1/10) := by
      intro h
      apply h2
      rcases h with h | h
      · exact Bool.or_eq_true .. |>.mpr (Or.inl h)
      · exact Bool.or_eq_true .. |>.mpr (Or.inr ((ndTransitionCheck_iff nd).mpr h))
    have hdf : hd = false := by
      cases hd
      · rfl
      · exact absurd (Or.inl rfl) hntr
    have hnd2 : ∀ x : ℚ, nd = some x → ¬x = 0 → 10⁻¹ ≤ |x| := by
      intro x hx hx0
      by_contra hlt
      push_neg at hlt
      exact hntr (Or.inr ⟨x, hx, hx0, by rw [one_div]; exact hlt⟩)
    refine ⟨?_, ?_, ?_⟩ <;> simp [hnt, hntr] <;> exact ⟨hdf, hnd2⟩

/-- C9: with sanely ordered thresholds, the health evaluator returns healthy,
warning or critical exactly on the claimed intervals (symmetrically when
lower is better), and an absent indicator always yields the status
`"unknown"`, never `"critical"`. -/
theorem C9_health_thresholds :
    (∀ v w c : ℚ, c ≤ w →
      (get_health_status v w c true = "healthy" ↔ w ≤ v) ∧
      (get_health_status v w c true = "warning" ↔ c ≤ v ∧ v < w) ∧
      (get_health_status v w c true = "critical" ↔ v < c)) ∧
    (∀ v w c : ℚ, w ≤ c →
      (get_health_status v w c false = "healthy" ↔ v ≤ w) ∧
      (get_health_status v w c false = "warning" ↔ w < v ∧ v ≤ c) ∧
      (get_health_status v w c false = "critical" ↔ c < v)) ∧
    (∀ sy dg, (check_precondition_health none sy dg).1 = "unknown" ∧
      (check_precondition_health none sy dg).1 ≠ "critical") ∧
    (∀ ed dg, (check_precondition_health ed none dg).2.1 = "unknown" ∧
      (check_precondition_health ed none dg).2.1 ≠ "critical") ∧
    (∀ ed sy, (check_precondition_health ed sy none).2.2 = "unknown" ∧
      (check_precondition_health ed sy none).2.2 ≠ "critical") := by
  refine ⟨?_, ?_, ?_, ?_, ?_⟩
  · intro v w c h
    unfold get_health_status
    simp only [if_true]
    split_ifs with h1 h2 <;>
      refine ⟨?_, ?_, ?_⟩ <;> simp <;>
      first
        | linarith
        | (intro h3; linarith)
        | (constructor <;> intro h3 <;> linarith)
        | (constructor <;> linarith)
  · intro v w c h
    unfold get_health_status
    simp only [Bool.false_eq_true, if_false]
    split_ifs with h1 h2 <;>
      refine ⟨?_, ?_, ?_⟩ <;> simp <;>
      first
        | linarith
        | (intro h3; linarith)
        | (constructor <;> intro h3 <;> linarith)
        | (constructor <;> linarith)
  · intro sy dg
    exact ⟨rfl, by simp [check_precondition_health]⟩
  · intro ed dg
    exact ⟨rfl, by simp [check_precondition_health]⟩
  · intro ed sy
    exact ⟨rfl, by simp [check_precondition_health]⟩

/-- Witness for C9 at concrete thresholds and values. -/
theorem C9_health_thresholds_witness :
    get_health_status 5 3 1 true = "healthy" ∧
    get_health_status 2 3 1 true = "warning" ∧
    get_health_status 0 3 1 true = "critical" ∧
    get_health_status 7 3 9 false = "warning" ∧
    (check_precondition_health none (some 1) (some 1)).1 = "unknown" :=
  ⟨(C9_health_thresholds.1 5 3 1 (by norm_num)).1.mpr (by norm_num),
   (C9_health_thresholds.1 2 3 1 (by norm_num)).2.1.mpr (by norm_num),
   (C9_health_thresholds.1 0 3 1 (by norm_num)).2.2.mpr (by norm_num),
   (C9_health_thresholds.2.1 7 3 9 (by norm_num)).2.1.mpr (by norm_num),
   (C9_health_thresholds.2.2.1 (some 1) (some 1)).1⟩

/-- The portfolio loop accumulates exactly the value sum and the
truthy-cost-basis sum. -/
theorem portfolio_foldl_spec (sd : List (String × StockInput))
    (ps : List (String × PositionInput)) (acc : ℚ × ℚ × List (String × PositionValue)) :
    (ps.foldl (portfolioStep sd) acc).1 = acc.1 + valueSum sd ps ∧
    (ps.foldl (portfolioStep sd) acc).2.1 = acc.2.1 + costSum ps := by
  induction ps generalizing acc with
  | nil => simp [valueSum, costSum]
  | cons e t ih =>
    simp only [List.foldl_cons, valueSum, costSum, List.map_cons, List.sum_cons]
    obtain ⟨ih1, ih2⟩ := ih (portfolioStep sd acc e)
    constructor
    · rw [ih1]
      simp only [portfolioStep, valueContrib, valueSum]
      ring
    · rw [ih2]
      rcases h : e.2.cost_basis with _ | cb
      · simp [portfolioStep, truthyCostContrib, costSum, h]
      · by_cases hcb : cb = 0 <;>
          simp [portfolioStep, truthyCostContrib, costSum, h, hcb] <;> ring

/-- C3 counterexample: in a portfolio where position BBB has 1,000 shares and
no cost basis while position AAA has a cost basis, the aggregate P&L is the
partial sum `some 6000` (7,000 total value minus AAA's 1,000 cost), not
`none` as the claim asserts. -/
theorem C3_counterexample :
    ("BBB", (⟨1000, none⟩ : PositionInput)) ∈ examplePositions ∧
    (1000 : ℚ) ≠ 0 ∧
    (calculate_portfolio_metrics examplePositions exampleStocks).total_pnl
      = some 6000 := by
  refine ⟨by simp [examplePositions], by norm_num, ?_⟩
  simp [calculate_portfolio_metrics, examplePositions, exampleStocks,
    portfolioStep, lookupStock, effectivePrice]
  norm_num

/-- C3 amended: positions with a falsy (absent or zero) cost basis are
silently excluded from the cost sum; the aggregate P&L equals total value
minus this partial cost sum whenever the partial sum is positive — even when
some position with nonzero shares lacks a cost basis — and is undefined
exactly when the partial cost sum is ≤ 0. -/
theorem C3_partial_pnl (ps : List (String × PositionInput))
    (sd : List (String × StockInput)) :
    (calculate_portfolio_metrics ps sd).total_value = valueSum sd ps ∧
    (calculate_portfolio_metrics ps sd).total_pnl =
      (if costSum ps > 0 then some (valueSum sd ps - costSum ps) else none) ∧
    ((calculate_portfolio_metrics ps sd).total_pnl = none ↔ costSum ps ≤ 0) := by
  obtain ⟨h1, h2⟩ := portfolio_foldl_spec sd ps (0, 0, [])
  rw [zero_add] at h1 h2
  refine ⟨?_, ?_, ?_⟩
  · simp only [calculate_portfolio_metrics, h1]
  · simp only [calculate_portfolio_metrics, h1, h2]
  · simp only [calculate_portfolio_metrics, h2]
    by_cases hc : costSum ps > 0
    · simp only [if_pos hc]
      constructor
      · intro h
        exact absurd h (by simp)
      · intro h
        linarith
    · simp only [if_neg hc]
      push_neg at hc
      simp [hc]

/-- C4 counterexample: with a one-year history of daily highs maxing at 100
and a separately fetched current price of 110, the fetcher computes drawdown
`(110 − 100)/100 = 1/10 > 0`: the code never raises the high-water mark to
include the current observation, so the claimed `drawdown ≤ 0` bound fails. -/
theorem C4_counterexample :
    yahoo_drawdown_from_ath [100] 110 = some (1/10) ∧ ¬((1 : ℚ)/10 ≤ 0) := by
  constructor
  · norm_num [yahoo_drawdown_from_ath, histMax]
  · norm_num

/-- C4 amended: provided the current price does not exceed the (positive)
high — the code does not update the high-water mark with the current
observation, so this is a hypothesis, not an invariant — the computed
drawdown is `(current − high)/high ≤ 0`, with equality exactly when the
current price equals the high; likewise for `calculate_drawdown`. -/
theorem C4_drawdown_nonpositive (highs : List ℚ) (current ath : ℚ)
    (hath : histMax highs = some ath) (hpos : 0 < ath) (hle : current ≤ ath)
    (hcur : current ≠ 0) :
    (yahoo_drawdown_from_ath highs current = some ((current - ath) / ath) ∧
      (current - ath) / ath ≤ 0 ∧ ((current - ath) / ath = 0 ↔ current = ath)) ∧
    ∀ cp hp : ℚ, 0 < hp → cp ≤ hp →
      calculate_drawdown cp hp ≤ 0 ∧ (calculate_drawdown cp hp = 0 ↔ cp = hp) := by
  have hne : ath ≠ 0 := ne_of_gt hpos
  constructor
  · refine ⟨?_, ?_, ?_⟩
    · unfold yahoo_drawdown_from_ath
      rw [hath]
      simp [hne, hcur]
    · exact div_nonpos_iff.mpr (Or.inr ⟨by linarith, hpos.le⟩)
    · rw [div_eq_zero_iff]
      simp [hne, sub_eq_zero]
  · intro cp hp hp0 hle2
    unfold calculate_drawdown
    rw [if_neg (not_le.mpr hp0)]
    constructor
    · exact div_nonpos_iff.mpr (Or.inr ⟨by linarith, hp0.le⟩)
    · rw [div_eq_zero_iff]
      simp [ne_of_gt hp0, sub_eq_zero]

/-- Witness for C4 at a concrete history and price. -/
theorem C4_drawdown_nonpositive_witness :
    yahoo_drawdown_from_ath [100] 90 = some ((90 - 100) / 100) ∧
    ((90 : ℚ) - 100) / 100 ≤ 0 :=
  ⟨((C4_drawdown_nonpositive [100] 90 100 rfl (by norm_num) (by norm_num)
      (by norm_num)).1).1,
   ((C4_drawdown_nonpositive [100] 90 100 rfl (by norm_num) (by norm_num)
      (by norm_num)).1).2.1⟩

/-- C8 counterexample: two companies with identical parameters (hence equal
`total_annual_tokens`) listed as ZZZ then AAA keep that order after the
descending sort: there is no ascending-ticker tie-break, so the ranking is
not the function of the input set the claim describes. -/
theorem C8_counterexample :
    (rankRows exampleCompanies 100).map ProdRow.ticker = ["ZZZ", "AAA"] ∧
    (["ZZZ", "AAA"] : List String) ≠ ["AAA", "ZZZ"] ∧
    (rankRows exampleCompanies 100).map (fun r => r.record.total_tokens)
      = [20, 20] := by
  refine ⟨?_, by simp, ?_⟩ <;>
    norm_num [rankRows, buildRows, exampleCompanies, exampleCompany,
      productivityRecord, List.insertionSort, List.orderedInsert, rowGE]

/-- C8 amended: the produced ranking is a permutation of the per-company rows
that is pairwise sorted by descending `total_annual_tokens`; equal totals are
left in the order the (stable) sort encounters them — the input iteration
order — with no ticker tie-break. -/
theorem C8_ranking (companies : List (String × CompanyInput)) (asset_price : ℚ) :
    List.Sorted rowGE (rankRows companies asset_price) ∧
    (rankRows companies asset_price).Perm (buildRows companies asset_price) :=
  ⟨List.sorted_insertionSort rowGE (buildRows companies asset_price),
   List.perm_insertionSort rowGE (buildRows companies asset_price)⟩

end ThesisDashboard
